import Mathlib

/-!
# Car order service: the request handlers of `src/main.go`

The handlers are embedded as pure functions over an explicit server state.
What the Go code obtains from its collaborators is modelled as follows.

* `strconv.Atoi` (64-bit `int`) is modelled concretely (`ParseUint`, `ParseInt`, `Atoi`).
* `github.com/juju/ratelimit` is modelled concretely (`Bucket`); the reading of the
  clock at the moment the limiter is consulted is an input of the handler.
* The PostgreSQL store behind `database/sql` is an in-memory table (`DB`) that understands
  the statement texts the program sends: the `INSERT` and the five `SELECT`s. It keeps a journal
  of every statement it receives. Whether the store refuses an `INSERT` is an input of the
  handler. The handle is open and the table exists: a `SELECT` of the program is answered, and
  the columns hold values of the Go types they are scanned into. The numeric columns `Volume`
  and `Price` are taken to be double precision.
* `strconv.ParseFloat` and the parser of `html/template` are parameters (`Lib`).
* The HTTP response is what the handler writes on its `ResponseWriter`: the message and status
  of `http.Error`, the status and `Location` header of `http.Redirect` (modelled concretely,
  with the part of `net/url` and `path` it uses), or the `Execute` of the parsed template on
  its binding.
* Go strings are sequences of bytes; here they are texts (valid UTF-8).
* Output on standard output (`fmt.Println`) is not modelled.
* Handlers run one at a time: the embedding is sequential.
-/

namespace Adv34

/-! ## Go values -/

/-- A `float64`, kept as its IEEE-754 bit pattern (sign, 11 exponent bits, 52 fraction bits).
The program never computes with these values: it stores them, has the store compare them
and prints them. -/
structure Float64 where
  bits : Nat
deriving DecidableEq, Repr

/-- The constant `0.0`. -/
def Float64.zero : Float64 := ⟨0⟩

/-- Bit pattern of the float64 nearest to the natural number `n` (round to nearest, ties to even). -/
def Float64.ofNat (n : Nat) : Nat :=
  if n = 0 then 0
  else
    let e := Nat.log2 n
    if e ≤ 52 then (e + 1023) * 2 ^ 52 + (n * 2 ^ (52 - e) - 2 ^ 52)
    else
      let sh := e - 52
      let q := n / 2 ^ sh
      let r := n % 2 ^ sh
      let half := 2 ^ (sh - 1)
      let m := if r > half ∨ (r = half ∧ q % 2 = 1) then q + 1 else q
      (e + 1023) * 2 ^ 52 + (m - 2 ^ 52)

/-- Conversion of an integer to float64, as the store does for an integer parameter bound to a
double precision column. -/
def Float64.ofInt (n : Int) : Float64 :=
  if n < 0 then ⟨2 ^ 63 + Float64.ofNat n.natAbs⟩ else ⟨Float64.ofNat n.natAbs⟩

/-- Not-a-number: all exponent bits set and a non-zero fraction. -/
def Float64.isNaN (f : Float64) : Bool :=
  decide ((f.bits / 2 ^ 52) % 2 ^ 11 = 2047) && decide (f.bits % 2 ^ 52 ≠ 0)

/-- Positive or negative zero. -/
def Float64.isZero (f : Float64) : Bool :=
  decide (f.bits % 2 ^ 63 = 0)

/-- The comparison `a = b` on double precision values as PostgreSQL evaluates it: the two zeros
are equal, NaN equals NaN, otherwise the values are equal when their bit patterns are. -/
def Float64.eq (a b : Float64) : Bool :=
  if a.isNaN then b.isNaN
  else !b.isNaN && (decide (a.bits = b.bits) || (a.isZero && b.isZero))

/-- A value exchanged with the store (`driver.Value`). -/
inductive Value where
  | text (s : String)
  | int (n : Int)
  | float (f : Float64)
deriving DecidableEq, Repr

/-- The struct `Car`. -/
structure Car where
  Model : String
  Quantity : Int
  Price : Float64
deriving DecidableEq, Repr

/-- The zero value `Car{}`. -/
def Car.zero : Car := ⟨"", 0, Float64.zero⟩

/-! ## strconv.Atoi -/

/-- The two errors of package strconv. -/
inductive NumError where
  | ErrSyntax
  | ErrRange
deriving DecidableEq, Repr

/-- The digit loop of `strconv.ParseUint(s, 10, 64)`: `n` is the value read so far. A byte that is
not a decimal digit is a syntax error; a value above `2^64 - 1` is a range error, reported at the
digit where it occurs, with the largest uint64 as value. -/
def ParseUint.loop (n : Nat) : List Char → Nat × Option NumError
  | [] => (n, none)
  | c :: cs =>
    if 48 ≤ c.toNat ∧ c.toNat ≤ 57 then
      let n1 := n * 10 + (c.toNat - 48)
      if n1 ≥ 2 ^ 64 then (2 ^ 64 - 1, some NumError.ErrRange)
      else ParseUint.loop n1 cs
    else (0, some NumError.ErrSyntax)

/-- Model of `strconv.ParseUint(s, 10, 64)`. -/
def ParseUint (s : List Char) : Nat × Option NumError :=
  match s with
  | [] => (0, some NumError.ErrSyntax)
  | _ => ParseUint.loop 0 s

/-- Model of `strconv.ParseInt(s, 10, 0)` on a 64-bit platform. -/
def ParseInt (s : List Char) : Int × Option NumError :=
  match s with
  | [] => (0, some NumError.ErrSyntax)
  | c :: cs =>
    let neg := decide (c = '-')
    let s1 := if c = '+' ∨ c = '-' then cs else c :: cs
    let un := ParseUint s1
    match un.2 with
    | some NumError.ErrSyntax => (0, some NumError.ErrSyntax)
    | _ =>
      let cutoff : Nat := 2 ^ 63
      if !neg && decide (un.1 ≥ cutoff) then ((cutoff : Int) - 1, some NumError.ErrRange)
      else if neg && decide (un.1 > cutoff) then (-(cutoff : Int), some NumError.ErrRange)
      else (if neg then -(un.1 : Int) else (un.1 : Int), none)

/-- Model of `strconv.Atoi`: the value and the error. On an error the value is `0` (syntax) or the
nearest bound of int64 (range). -/
def Atoi (s : String) : Int × Option NumError :=
  ParseInt s.toList

/-! ## github.com/juju/ratelimit -/

/-- The largest `time.Duration`, in nanoseconds. -/
def maxDuration : Int := 2 ^ 63 - 1

/-- The smallest `time.Duration`, in nanoseconds. -/
def minDuration : Int := -(2 ^ 63)

/-- The duration `time.Second`, in nanoseconds. -/
def Second : Int := 1000000000

/-- Model of `t.Sub(u)` on clock readings in nanoseconds: the difference, saturated to the range
of `time.Duration`. -/
def Sub (t u : Int) : Int :=
  if t - u > maxDuration then maxDuration
  else if t - u < minDuration then minDuration
  else t - u

/-- The token bucket of the rate limiter (`ratelimit.Bucket`, without its lock and clock). -/
structure Bucket where
  startTime : Int
  capacity : Int
  quantum : Int
  fillInterval : Int
  availableTokens : Int
  latestTick : Int
deriving DecidableEq, Repr

/-- Model of `ratelimit.NewBucket(fillInterval, capacity)` called when the clock reads `now`:
the quantum is one token and the bucket starts full. -/
def NewBucket (now fillInterval capacity : Int) : Bucket :=
  { startTime := now, capacity := capacity, quantum := 1, fillInterval := fillInterval,
    availableTokens := capacity, latestTick := 0 }

/-- Model of `currentTick`: the number of whole fill intervals between the creation of the bucket
and `now`. -/
def Bucket.currentTick (tb : Bucket) (now : Int) : Int :=
  Int.tdiv (Sub now tb.startTime) tb.fillInterval

/-- Model of `adjustavailableTokens`: records the tick and, when the bucket is not full, adds one
quantum per elapsed tick up to the capacity. The int64 arithmetic is done on `Int`: with a
quantum of 1 and ticks of 30 seconds the values stay far from the bounds of int64. -/
def Bucket.adjustavailableTokens (tb : Bucket) (tick : Int) : Bucket :=
  let lastTick := tb.latestTick
  let tb1 := { tb with latestTick := tick }
  if tb1.availableTokens ≥ tb1.capacity then tb1
  else
    let tb2 := { tb1 with availableTokens := tb1.availableTokens + (tick - lastTick) * tb1.quantum }
    if tb2.availableTokens > tb2.capacity then { tb2 with availableTokens := tb2.capacity }
    else tb2

/-- Model of `TakeAvailable(count)` when the clock reads `now`: the number of tokens removed and
the bucket afterwards. -/
def Bucket.TakeAvailable (tb : Bucket) (now : Int) (count : Int) : Int × Bucket :=
  if count ≤ 0 then (0, tb)
  else
    let tb1 := tb.adjustavailableTokens (tb.currentTick now)
    if tb1.availableTokens ≤ 0 then (0, tb1)
    else
      let count1 := if count > tb1.availableTokens then tb1.availableTokens else count
      (count1, { tb1 with availableTokens := tb1.availableTokens - count1 })

/-! ## The store -/

/-- A row of the table `Cars`. The column `carid` is the internal identifier. -/
structure Row where
  carid : Int
  CarName : String
  Quantity : Int
  Volume : Float64
  Price : Float64
deriving DecidableEq, Repr

/-- The store behind the `*sql.DB` handle: the rows of `Cars` in the order the store returns
them when no ordering is asked for, the next value of the identifier sequence, and the journal
of the statements received so far (oldest first). -/
structure DB where
  Cars : List Row
  nextId : Int
  sent : List (String × List Value)
deriving DecidableEq, Repr

/-- A parameter bound to a double precision column. -/
def Value.toFloat64 : Value → Option Float64
  | Value.float f => some f
  | Value.int n => some (Float64.ofInt n)
  | Value.text _ => none

/-- The columns `CarName, Quantity, Price` of a row, as the store sends them. -/
def Row.columns (row : Row) : List Value :=
  [Value.text row.CarName, Value.int row.Quantity, Value.float row.Price]

/-- What the store answers to a `SELECT`: the result rows, or an error for a statement or a
parameter list it does not accept. -/
def DB.select (db : DB) (query : String) (args : List Value) :
    Except String (List (List Value)) :=
  if query = "SELECT CarName, Quantity, Price FROM Cars WHERE CarName = $1" then
    match args with
    | [Value.text name] =>
      Except.ok ((db.Cars.filter (fun row => decide (row.CarName = name))).map Row.columns)
    | _ => Except.error "pq: wrong parameters"
  else if query = "SELECT CarName, Quantity, Price FROM Cars WHERE Volume = $1" then
    match args with
    | [a] =>
      match a.toFloat64 with
      | some v =>
        Except.ok ((db.Cars.filter (fun row => Float64.eq row.Volume v)).map Row.columns)
      | none => Except.error "pq: wrong parameters"
    | _ => Except.error "pq: wrong parameters"
  else if query = "SELECT CarName, Quantity, Price FROM Cars" then
    match args with
    | [] => Except.ok (db.Cars.map Row.columns)
    | _ => Except.error "pq: wrong parameters"
  else if query = "SELECT CarName, Quantity, Price FROM Cars ORDER BY carid ASC" then
    match args with
    | [] => Except.ok ((db.Cars.insertionSort (fun a b => a.carid ≤ b.carid)).map Row.columns)
    | _ => Except.error "pq: wrong parameters"
  else if query = "SELECT CarName, Quantity, Price FROM Cars ORDER BY carid DESC" then
    match args with
    | [] => Except.ok ((db.Cars.insertionSort (fun a b => a.carid ≥ b.carid)).map Row.columns)
    | _ => Except.error "pq: wrong parameters"
  else Except.error "pq: syntax error"

/-- Model of `db.Query(query, args...)`: the statement is journalled and answered. -/
def DB.Query (db : DB) (query : String) (args : List Value) :
    Except String (List (List Value)) × DB :=
  (db.select query args, { db with sent := db.sent ++ [(query, args)] })

/-- Model of `db.QueryRow(query, args...)`: as `Query`; the error, if any, is kept for `Scan`. -/
def DB.QueryRow (db : DB) (query : String) (args : List Value) :
    Except String (List (List Value)) × DB :=
  db.Query query args

/-- Model of `db.Exec(query, args...)`: the statement is journalled; the `INSERT` of the program
appends a row with the next identifier unless the store refuses it (`refused`: a constraint of
the schema, a value out of the range of a column, a lost connection). -/
def DB.Exec (db : DB) (refused : Bool) (query : String) (args : List Value) :
    Except String Unit × DB :=
  let db1 := { db with sent := db.sent ++ [(query, args)] }
  if query = "INSERT INTO Cars (CarName, Quantity, Volume, Price) VALUES ($1, $2, $3, $4)" then
    match args with
    | [Value.text name, Value.int quantity, volume, price] =>
      match volume.toFloat64, price.toFloat64 with
      | some v, some p =>
        if refused then (Except.error "pq: statement refused", db1)
        else
          (Except.ok (),
            { db1 with
              Cars := db1.Cars ++ [{ carid := db1.nextId, CarName := name, Quantity := quantity,
                                     Volume := v, Price := p }]
              nextId := db1.nextId + 1 })
      | _, _ => (Except.error "pq: wrong parameters", db1)
    | _ => (Except.error "pq: wrong parameters", db1)
  else (Except.error "pq: syntax error", db1)

/-- Model of `Scan(&car.Model, &car.Quantity, &car.Price)` on one result row. -/
def Scan (cols : List Value) : Except String Car :=
  match cols with
  | [Value.text m, Value.int q, Value.float p] =>
    Except.ok { Model := m, Quantity := q, Price := p }
  | _ => Except.error "sql: Scan error"

/-- Model of `row.Scan(...)` on the `*sql.Row` of `QueryRow`: the kept error, `sql.ErrNoRows`
when the result is empty, otherwise the scan of the first result row. -/
def RowScan (row : Except String (List (List Value))) : Except String Car :=
  match row with
  | Except.error e => Except.error e
  | Except.ok [] => Except.error "sql: no rows in result set"
  | Except.ok (cols :: _) => Scan cols

/-! ## HTTP -/

/-- The key/value pairs of a form or of the route variables. -/
abbrev Values := List (String × String)

/-- Model of `url.Values.Get` and of indexing a `map[string]string`: the first value of the key,
or the empty string. -/
def Values.Get : Values → String → String
  | [], _ => ""
  | (k, v) :: rest, key => if k = key then v else Values.Get rest key

/-- The part of `*http.Request` the handlers use: the form pairs the request carries (body
first, then the URL query), the field `Form` (nil until the form is decoded), the route
variables of the router, and the path of the request (`r.URL.Path`). -/
structure Request where
  params : Values
  Form : Option Values
  Vars : Values
  Path : String := "/"
deriving DecidableEq, Repr

/-- Model of `r.ParseForm()`: fills `Form` once. -/
def Request.ParseForm (r : Request) : Request :=
  match r.Form with
  | none => { r with Form := some r.params }
  | some _ => r

/-- Model of `r.Form.Get(key)`; on a nil `Form` the result is the empty string. -/
def Request.FormGet (r : Request) (key : String) : String :=
  match r.Form with
  | none => ""
  | some form => Values.Get form key

/-- The response written on the `ResponseWriter`: the message and status of `http.Error`; the
value that `http.Redirect` sets for the `Location` header, and its status; or the execution of
the template text on its binding. -/
inductive Response where
  | Error (error : String) (code : Nat)
  | Redirect (url : String) (code : Nat)
  | Execute (templateContent : String) (Title : String) (Cars : List Car)
deriving DecidableEq, Repr

/-- The status code of a response. Executing the template writes the body with status 200. -/
def Response.status : Response → Nat
  | Response.Error _ code => code
  | Response.Redirect _ code => code
  | Response.Execute _ _ _ => 200

/-- The constant `http.StatusSeeOther`. -/
def StatusSeeOther : Nat := 303

/-- The constant `http.StatusTooManyRequests`. -/
def StatusTooManyRequests : Nat := 429

/-- The constant `http.StatusInternalServerError`. -/
def StatusInternalServerError : Nat := 500

/-! ## http.Redirect -/

/-- An ASCII control byte; `url.Parse` refuses a text that holds one before its fragment. -/
def isCTL (c : Char) : Bool :=
  decide (c.toNat < 32) || decide (c.toNat = 127)

/-- A hexadecimal digit (`ishex` of net/url). -/
def ishex (c : Char) : Bool :=
  (decide (48 ≤ c.toNat) && decide (c.toNat ≤ 57)) ||
    (decide (97 ≤ c.toNat) && decide (c.toNat ≤ 102)) ||
    (decide (65 ≤ c.toNat) && decide (c.toNat ≤ 70))

/-- Whether `unescape` of net/url succeeds on a path, a fragment or a userinfo: every `%` is
followed by two hexadecimal digits. -/
def validEscapes : List Char → Bool
  | [] => true
  | c :: rest =>
    if c = '%' then
      match rest with
      | a :: b :: rest2 => ishex a && ishex b && validEscapes rest2
      | _ => false
    else validEscapes rest

/-- The check `validUserinfo` of net/url. -/
def validUserinfo (s : List Char) : Bool :=
  s.all (fun c =>
    (decide (65 ≤ c.toNat) && decide (c.toNat ≤ 90)) ||
      (decide (97 ≤ c.toNat) && decide (c.toNat ≤ 122)) ||
      (decide (48 ≤ c.toNat) && decide (c.toNat ≤ 57)) ||
      "-._:~!$&()*+,;=%@".toList.contains c || decide (c.toNat = 39))

/-- The loop of `getScheme` of net/url: `none` for the error "missing protocol scheme",
otherwise the scheme and the rest. `first` tells that the byte read is the first one, `acc` is
the text read so far. -/
def getScheme.loop (raw : List Char) (first : Bool) (acc : List Char) :
    List Char → Option (List Char × List Char)
  | [] => some ([], raw)
  | c :: cs =>
    if (decide (97 ≤ c.toNat) && decide (c.toNat ≤ 122)) ||
        (decide (65 ≤ c.toNat) && decide (c.toNat ≤ 90)) then
      getScheme.loop raw false (acc ++ [c]) cs
    else if (decide (48 ≤ c.toNat) && decide (c.toNat ≤ 57)) || c = '+' || c = '-' || c = '.' then
      if first then some ([], raw) else getScheme.loop raw false (acc ++ [c]) cs
    else if c = ':' then
      if first then none else some (acc, cs)
    else some ([], raw)

/-- Model of `getScheme` of net/url. -/
def getScheme (raw : List Char) : Option (List Char × List Char) :=
  getScheme.loop raw true [] raw

/-- What `http.Redirect` asks of `url.Parse(target)`: whether it succeeds with an empty `Scheme`
and an empty `Host`. -/
def parsesAsRelative (target : List Char) : Bool :=
  let pre := target.takeWhile (fun c => decide (c ≠ '#'))
  let frag := (target.dropWhile (fun c => decide (c ≠ '#'))).drop 1
  if pre.any isCTL then false
  else if validEscapes frag = false then false
  else if pre = ['*'] then true
  else
    match getScheme pre with
    | none => false
    | some (scheme, rest0) =>
      if scheme ≠ [] then false
      else
        let rest := rest0.takeWhile (fun c => decide (c ≠ '?'))
        if rest.head? ≠ some '/' then
          if (rest.takeWhile (fun c => decide (c ≠ '/'))).contains ':' then false
          else validEscapes rest
        else if (rest.take 2 = ['/', '/']) ∧ rest.take 3 ≠ ['/', '/', '/'] then
          let authority := (rest.drop 2).takeWhile (fun c => decide (c ≠ '/'))
          let path := (rest.drop 2).dropWhile (fun c => decide (c ≠ '/'))
          let host := (authority.reverse.takeWhile (fun c => decide (c ≠ '@'))).reverse
          if host ≠ [] then false
          else if authority = [] then validEscapes path
          else
            let userinfo := authority.take (authority.length - 1)
            validUserinfo userinfo && validEscapes userinfo && validEscapes path
        else validEscapes rest

/-- The elements of a path between its slashes (`strings.Split(path, "/")`). -/
def splitSlash : List Char → List (List Char)
  | [] => [[]]
  | c :: cs =>
    if c = '/' then [] :: splitSlash cs
    else
      match splitSlash cs with
      | [] => [[c]]
      | seg :: segs => (c :: seg) :: segs

/-- One element read by `path.Clean`; `stack` holds the elements kept so far, last one first.
An empty element and `.` are dropped; `..` removes the last element kept, is dropped at the
root, and is kept at the head of a path that is not rooted; any other element is kept. -/
def cleanStep (rooted : Bool) (stack : List (List Char)) (seg : List Char) : List (List Char) :=
  if seg = [] ∨ seg = ['.'] then stack
  else if seg = ['.', '.'] then
    match stack with
    | [] => if rooted then [] else [seg]
    | top :: below => if !rooted && decide (top = ['.', '.']) then seg :: stack else below
  else seg :: stack

/-- Model of `path.Clean`. -/
def pathClean (path : List Char) : List Char :=
  if path = [] then ['.']
  else
    let rooted := decide (path.head? = some '/')
    let kept := ((splitSlash path).foldl (cleanStep rooted) []).reverse
    if rooted then '/' :: List.intercalate ['/'] kept
    else if kept = [] then ['.']
    else List.intercalate ['/'] kept

/-- The directory part of `path.Split`: the path up to and with its last slash. -/
def pathDir (path : List Char) : List Char :=
  (path.reverse.dropWhile (fun c => decide (c ≠ '/'))).reverse

/-- The bytes of the UTF-8 encoding of a character. -/
def utf8Bytes (c : Char) : List Nat :=
  let n := c.toNat
  if n < 128 then [n]
  else if n < 2048 then [192 + n / 64, 128 + n % 64]
  else if n < 65536 then [224 + n / 4096, 128 + (n / 64) % 64, 128 + n % 64]
  else [240 + n / 262144, 128 + (n / 4096) % 64, 128 + (n / 64) % 64, 128 + n % 64]

/-- A hexadecimal digit in lower case. -/
def hexDigit (n : Nat) : Char :=
  if n < 10 then Char.ofNat (48 + n) else Char.ofNat (87 + n)

/-- Model of `hexEscapeNonASCII` of net/http: every byte from 128 up is written as `%` and its
two hexadecimal digits. -/
def hexEscapeNonASCII : List Char → List Char
  | [] => []
  | c :: cs =>
    if c.toNat < 128 then c :: hexEscapeNonASCII cs
    else
      ((utf8Bytes c).map (fun b => ['%', hexDigit (b / 16), hexDigit (b % 16)])).flatten ++
        hexEscapeNonASCII cs

/-- Model of `http.Redirect(w, r, url, code)`: the `Location` header and the status. A target
that parses without scheme and host is made absolute against the path of the request, and its
part before the first `?` is cleaned by `path.Clean`, a trailing slash being kept; bytes that
are not ASCII are escaped. -/
def httpRedirect (r : Request) (url : String) (code : Nat) : Response :=
  let target := url.toList
  let location :=
    if parsesAsRelative target then
      let oldpath := if r.Path = "" then ['/'] else r.Path.toList
      let url1 := if target.head? ≠ some '/' then pathDir oldpath ++ target else target
      let query := url1.dropWhile (fun c => decide (c ≠ '?'))
      let url2 := url1.takeWhile (fun c => decide (c ≠ '?'))
      let trailing := decide (url2.getLast? = some '/')
      let url3 := pathClean url2
      let url4 := if trailing && decide (url3.getLast? ≠ some '/') then url3 ++ ['/'] else url3
      url4 ++ query
    else target
  Response.Redirect (String.mk (hexEscapeNonASCII location)) code

/-- The template shared by all pages. -/
def orderTemplate : String := "
<!DOCTYPE html>
<html lang=\"en\">
<head>
    <meta charset=\"UTF-8\">
    <meta name=\"viewport\" content=\"width=device-width, initial-scale=1.0\">
    <title>\x7b\x7b.Title\x7d\x7d</title>
    <style>
        body \x7b
            font-family: Arial, sans-serif;
            margin: 20px;
        \x7d
    </style>
</head>
<body>
    <h2>\x7b\x7b.Title\x7d\x7d</h2>

    \x7b\x7brange .Cars\x7d\x7d
    <p>Car Model: \x7b\x7b.Model\x7d\x7d</p>
    <p>Quantity: \x7b\x7b.Quantity\x7d\x7d</p>
    <p>Price: $\x7b\x7b.Price\x7d\x7d</p>
    \x7b\x7bend\x7d\x7d
</body>

</html>
"

/-- The library functions that are parameters of the embedding: `strconv.ParseFloat(s, 64)`
(`none` for an error) and whether `template.New("template").Parse(text)` succeeds. -/
structure Lib where
  ParseFloat : String → Option Float64
  ParseTemplate : String → Bool

/-- The dynamic value passed to `renderTemplate` as `data interface{}`: a `Car`, a `[]Car`, or a
value of another type, named by its type. -/
inductive Data where
  | car (d : Car)
  | cars (d : List Car)
  | other (goType : String)
deriving DecidableEq, Repr

/-! ## The program -/

/-- The state of the process: the limiter, the store, and the two variables `qty` and
`defaultPrice` of `main` that the order handler writes through pointers. -/
structure Server where
  submitOrderLimiter : Bucket
  db : DB
  qty : Int
  defaultPrice : Float64
deriving DecidableEq, Repr

/-- What a request to `/submit_order` meets: the reading of the clock when the limiter is
consulted, and whether the store refuses the `INSERT`. -/
structure Env where
  now : Int
  refused : Bool
deriving DecidableEq, Repr

/-- The declaration `var submitOrderLimiter = ratelimit.NewBucket(time.Second*30, 1)`, evaluated
when the clock reads `start`. -/
def submitOrderLimiter (start : Int) : Bucket :=
  NewBucket start (Second * 30) 1

/-- The function `submitOrderHandler`. -/
def submitOrderHandler (env : Env) (s : Server) (r : Request) : Response × Request × Server :=
  let taken := s.submitOrderLimiter.TakeAvailable env.now 1
  let s1 := { s with submitOrderLimiter := taken.2 }
  if taken.1 < 1 then
    (Response.Error "Rate limit exceeded. Please try again later." StatusTooManyRequests, r, s1)
  else
    let r1 := r.ParseForm
    let carModel := r1.FormGet "carModel"
    let quantity := r1.FormGet "quantity"
    let conv := Atoi quantity
    let s2 := { s1 with qty := conv.1 }
    if conv.2 ≠ none then
      (Response.Error "Internal Server Error" StatusInternalServerError, r1, s2)
    else
      let s3 := { s2 with defaultPrice := Float64.zero }
      let res := s3.db.Exec env.refused
        "INSERT INTO Cars (CarName, Quantity, Volume, Price) VALUES ($1, $2, $3, $4)"
        [Value.text carModel, Value.int s3.qty, Value.int 0, Value.float s3.defaultPrice]
      let s4 := { s3 with db := res.2 }
      match res.1 with
      | Except.error _ =>
        (Response.Error "Internal Server Error" StatusInternalServerError, r1, s4)
      | Except.ok _ =>
        (httpRedirect r1 ("/car_info/" ++ carModel) StatusSeeOther, r1, s4)

/-- The function `renderTemplate`. -/
def renderTemplate (L : Lib) (templateContent title : String) (data : Data) : Response :=
  if L.ParseTemplate templateContent = false then
    Response.Error "Internal Server Error" StatusInternalServerError
  else
    match data with
    | Data.car d => Response.Execute templateContent title ([] ++ [d])
    | Data.cars d => Response.Execute templateContent title d
    | Data.other _ => Response.Error "Internal Server Error" StatusInternalServerError

/-- The function `getCarInfoFromDatabase`: the car, the error, and the store afterwards. -/
def getCarInfoFromDatabase (db : DB) (carModel : String) : (Car × Option String) × DB :=
  let row := db.QueryRow "SELECT CarName, Quantity, Price FROM Cars WHERE CarName = $1"
    [Value.text carModel]
  match RowScan row.1 with
  | Except.error err => ((Car.zero, some err), row.2)
  | Except.ok car => ((car, none), row.2)

/-- The function `carInfoHandler`. -/
def carInfoHandler (L : Lib) (db : DB) (r : Request) : Response × Request × DB :=
  let carModel := Values.Get r.Vars "carModel"
  let res := getCarInfoFromDatabase db carModel
  match res.1.2 with
  | some _ => (Response.Error "Internal Server Error" StatusInternalServerError, r, res.2)
  | none => (renderTemplate L orderTemplate "Car Information" (Data.car res.1.1), r, res.2)

/-- The loop `for rows.Next() { ... }` of `filterCarsByVolumeFromDatabase` and of
`getAllCarsFromDatabase`: every result row is scanned and appended to `cars`; a scan error ends
the loop with a nil slice and the error. -/
def scanRows (cars : List Car) : List (List Value) → List Car × Option String
  | [] => (cars, none)
  | cols :: rest =>
    match Scan cols with
    | Except.error err => ([], some err)
    | Except.ok car => scanRows (cars ++ [car]) rest

/-- The function `filterCarsByVolumeFromDatabase`. -/
def filterCarsByVolumeFromDatabase (db : DB) (volume : Float64) :
    (List Car × Option String) × DB :=
  let res := db.Query "SELECT CarName, Quantity, Price FROM Cars WHERE Volume = $1"
    [Value.float volume]
  match res.1 with
  | Except.error err => (([], some err), res.2)
  | Except.ok rows => (scanRows [] rows, res.2)

/-- The function `filterCarsHandler`. -/
def filterCarsHandler (L : Lib) (db : DB) (r : Request) : Response × Request × DB :=
  let r1 := r.ParseForm
  let carVolume := r1.FormGet "carVolume"
  match L.ParseFloat carVolume with
  | none => (Response.Error "Internal Server Error" StatusInternalServerError, r1, db)
  | some volume =>
    let res := filterCarsByVolumeFromDatabase db volume
    match res.1.2 with
    | some _ => (Response.Error "Internal Server Error" StatusInternalServerError, r1, res.2)
    | none => (renderTemplate L orderTemplate "Filtered Cars" (Data.cars res.1.1), r1, res.2)

/-- The query text built by `getAllCarsFromDatabase`. -/
def getAllCarsQuery (sortOrder : String) : String :=
  let query := "SELECT CarName, Quantity, Price FROM Cars"
  if sortOrder = "asc" then query ++ " ORDER BY carid ASC"
  else if sortOrder = "desc" then query ++ " ORDER BY carid DESC"
  else query

/-- The function `getAllCarsFromDatabase`. -/
def getAllCarsFromDatabase (db : DB) (sortOrder : String) : (List Car × Option String) × DB :=
  let res := db.Query (getAllCarsQuery sortOrder) []
  match res.1 with
  | Except.error err => (([], some err), res.2)
  | Except.ok rows => (scanRows [] rows, res.2)

/-- The function `sortCarsHandler`. -/
def sortCarsHandler (L : Lib) (db : DB) (r : Request) : Response × Request × DB :=
  let r1 := r.ParseForm
  let sortOrder := r1.FormGet "sort"
  let res := getAllCarsFromDatabase db sortOrder
  match res.1.2 with
  | some _ => (Response.Error "Internal Server Error" StatusInternalServerError, r1, res.2)
  | none => (renderTemplate L orderTemplate "Sorted Cars" (Data.cars res.1.1), r1, res.2)

/-! ## Runs, and the states of the limiter -/

/-- A request that the router of `main` hands to one of the four handlers over the store. -/
inductive Call where
  | submitOrder (env : Env) (r : Request)
  | carInfo (r : Request)
  | filterCars (r : Request)
  | sortCars (r : Request)
deriving DecidableEq, Repr

/-- The state of the process after one request has been served. -/
def dispatch (L : Lib) (s : Server) : Call → Server
  | Call.submitOrder env r => (submitOrderHandler env s r).2.2
  | Call.carInfo r => { s with db := (carInfoHandler L s.db r).2.2 }
  | Call.filterCars r => { s with db := (filterCarsHandler L s.db r).2.2 }
  | Call.sortCars r => { s with db := (sortCarsHandler L s.db r).2.2 }

/-- The state of the process after a sequence of requests, served one after the other. -/
def serve (L : Lib) (s : Server) : List Call → Server
  | [] => s
  | call :: rest => serve L (dispatch L s call) rest

/-- The process right after start-up, when the clock reads `start`: the limiter is new; the store
and the two variables are arbitrary. -/
def boot (start : Int) (db : DB) (qty : Int) (defaultPrice : Float64) : Server :=
  { submitOrderLimiter := submitOrderLimiter start, db := db, qty := qty,
    defaultPrice := defaultPrice }

/-- The refill window of the limiter that contains the clock reading `now`: windows last 30
seconds and are counted from the creation of the bucket at `start`. -/
def window (start now : Int) : Int :=
  (submitOrderLimiter start).currentTick now

/-- The states of the limiter of the program: its four constants, and at most one token. -/
def Bucket.Inv (start : Int) (tb : Bucket) : Prop :=
  tb.startTime = start ∧ tb.capacity = 1 ∧ tb.quantum = 1 ∧ tb.fillInterval = Second * 30 ∧
    tb.availableTokens ≤ 1

/-- The projection `CarName, Quantity, Price` of a row as a `Car`. -/
def Row.toCar (row : Row) : Car :=
  { Model := row.CarName, Quantity := row.Quantity, Price := row.Price }

/-! ## Sample inputs -/

/-- A library in which `"0"` and `"2.5"` parse as floats and every template text parses. -/
def sampleLib : Lib :=
  { ParseFloat := fun s =>
      if s = "0" then some Float64.zero
      else if s = "2.5" then some ⟨0x4004000000000000⟩
      else none
    ParseTemplate := fun _ => true }

/-- A store with two rows, stored out of identifier order. -/
def sampleDB : DB :=
  { Cars := [{ carid := 7, CarName := "Civic", Quantity := 5, Volume := ⟨0x4004000000000000⟩,
               Price := ⟨0x40C3880000000000⟩ },
             { carid := 3, CarName := "Golf", Quantity := 1, Volume := Float64.zero,
               Price := ⟨0x40BF400000000000⟩ }]
    nextId := 8
    sent := [] }

/-- A server just started at clock reading `0` on the sample store. -/
def sampleServer : Server := boot 0 sampleDB 99 ⟨0x4059000000000000⟩

/-- The sample server after its limiter has given its token away. -/
def drainedServer : Server :=
  { sampleServer with
    submitOrderLimiter := { submitOrderLimiter 0 with availableTokens := 0 } }

/-- A request to `/submit_order` with the two form fields. -/
def orderRequest (carModel quantity : String) : Request :=
  { params := [("carModel", carModel), ("quantity", quantity)], Form := none, Vars := [],
    Path := "/submit_order" }

/-- A request to `/car_info/{carModel}`. -/
def infoRequest (carModel : String) : Request :=
  { params := [], Form := none, Vars := [("carModel", carModel)],
    Path := "/car_info/" ++ carModel }

/-- A request to `/filter_cars` with the form field `carVolume`. -/
def filterRequest (carVolume : String) : Request :=
  { params := [("carVolume", carVolume)], Form := none, Vars := [], Path := "/filter_cars" }

theorem Bucket.currentTick_of_inv {start : Int} {tb : Bucket} (h : tb.Inv start) (now : Int) :
    tb.currentTick now = window start now := by
  obtain ⟨h1, _, _, h4, _⟩ := h
  simp [Bucket.currentTick, window, submitOrderLimiter, NewBucket, h1, h4]

theorem submitOrderLimiter_inv (start : Int) : (submitOrderLimiter start).Inv start := by
  simp [Bucket.Inv, submitOrderLimiter, NewBucket]

theorem Bucket.takeAvailable_inv {start : Int} {tb : Bucket} (h : tb.Inv start) (now : Int) :
    (tb.TakeAvailable now 1).2.Inv start := by
  obtain ⟨h1, h2, h3, h4, h5⟩ := h
  simp only [Bucket.TakeAvailable, Bucket.adjustavailableTokens, Bucket.Inv]
  split_ifs <;> simp_all <;> omega

/-- After the limiter has been consulted in some window, it remembers the window and holds no
token. -/
theorem Bucket.takeAvailable_drained {start : Int} {tb : Bucket} (h : tb.Inv start) (now : Int) :
    (tb.TakeAvailable now 1).2.latestTick = window start now ∧
      (tb.TakeAvailable now 1).2.availableTokens ≤ 0 := by
  have hw := Bucket.currentTick_of_inv h now
  obtain ⟨h1, h2, h3, h4, h5⟩ := h
  simp only [Bucket.TakeAvailable, Bucket.adjustavailableTokens]
  split_ifs <;> simp_all

/-- A limiter without token that is consulted again in the window it remembers gives nothing and
stays as it is. -/
theorem Bucket.takeAvailable_same_window {start : Int} {tb : Bucket} (h : tb.Inv start)
    (now : Int) (hl : tb.latestTick = window start now) (ha : tb.availableTokens ≤ 0) :
    (tb.TakeAvailable now 1).1 = 0 ∧ (tb.TakeAvailable now 1).2 = tb := by
  have hw := Bucket.currentTick_of_inv h now
  obtain ⟨h1, h2, h3, h4, h5⟩ := h
  have hadj : tb.adjustavailableTokens (tb.currentTick now) = tb := by
    rw [hw, ← hl]
    have hcap : ¬ tb.availableTokens ≥ tb.capacity := by omega
    have hfull : ¬ tb.availableTokens > tb.capacity := by omega
    simp only [Bucket.adjustavailableTokens, hcap, hfull, if_false, sub_self, zero_mul, add_zero]
  simp only [Bucket.TakeAvailable, hadj]
  simp [ha]

/-! ## The order handler -/

theorem Float64.ofInt_zero : Float64.ofInt 0 = Float64.zero := by decide

/-- The `INSERT` of the order handler: refused, or a new row at the end of the table. -/
theorem DB.exec_insert (db : DB) (refused : Bool) (name : String) (q : Int) :
    db.Exec refused "INSERT INTO Cars (CarName, Quantity, Volume, Price) VALUES ($1, $2, $3, $4)"
        [Value.text name, Value.int q, Value.int 0, Value.float Float64.zero] =
      if refused then
        (Except.error "pq: statement refused",
          { db with sent := db.sent ++
              [("INSERT INTO Cars (CarName, Quantity, Volume, Price) VALUES ($1, $2, $3, $4)",
                [Value.text name, Value.int q, Value.int 0, Value.float Float64.zero])] })
      else
        (Except.ok (),
          { Cars := db.Cars ++ [{ carid := db.nextId, CarName := name, Quantity := q,
                                  Volume := Float64.zero, Price := Float64.zero }]
            nextId := db.nextId + 1
            sent := db.sent ++
              [("INSERT INTO Cars (CarName, Quantity, Volume, Price) VALUES ($1, $2, $3, $4)",
                [Value.text name, Value.int q, Value.int 0, Value.float Float64.zero])] }) := by
  simp [DB.Exec, Value.toFloat64, Float64.ofInt_zero]

/-! ### The redirect -/

theorem httpRedirect_status (r : Request) (url : String) (code : Nat) :
    (httpRedirect r url code).status = code := rfl

/-! ### The branches of the handler -/

/-- The limiter is consulted exactly once by every request. -/
theorem submitOrderHandler_limiter (env : Env) (s : Server) (r : Request) :
    (submitOrderHandler env s r).2.2.submitOrderLimiter =
      (s.submitOrderLimiter.TakeAvailable env.now 1).2 := by
  unfold submitOrderHandler
  simp only []
  split_ifs
  · rfl
  · rfl
  · split <;> rfl

/-- The request that is denied by the limiter. -/
theorem submitOrderHandler_denied (env : Env) (s : Server) (r : Request)
    (h : (s.submitOrderLimiter.TakeAvailable env.now 1).1 < 1) :
    submitOrderHandler env s r =
      (Response.Error "Rate limit exceeded. Please try again later." StatusTooManyRequests, r,
        { s with submitOrderLimiter := (s.submitOrderLimiter.TakeAvailable env.now 1).2 }) := by
  unfold submitOrderHandler
  simp only [h, if_true]

/-- The request that is admitted and whose quantity does not parse. -/
theorem submitOrderHandler_bad_quantity (env : Env) (s : Server) (r : Request)
    (ha : 1 ≤ (s.submitOrderLimiter.TakeAvailable env.now 1).1)
    (hq : (Atoi (r.ParseForm.FormGet "quantity")).2 ≠ none) :
    submitOrderHandler env s r =
      (Response.Error "Internal Server Error" StatusInternalServerError, r.ParseForm,
        { s with
          submitOrderLimiter := (s.submitOrderLimiter.TakeAvailable env.now 1).2
          qty := (Atoi (r.ParseForm.FormGet "quantity")).1 }) := by
  unfold submitOrderHandler
  have h : ¬ (s.submitOrderLimiter.TakeAvailable env.now 1).1 < 1 := not_lt.mpr ha
  simp only [h, if_false, hq, ne_eq, not_false_eq_true, if_true]

/-- The request that is admitted and whose quantity parses. -/
theorem submitOrderHandler_good_quantity (env : Env) (s : Server) (r : Request) (q : Int)
    (ha : 1 ≤ (s.submitOrderLimiter.TakeAvailable env.now 1).1)
    (hq : Atoi (r.ParseForm.FormGet "quantity") = (q, none)) :
    submitOrderHandler env s r =
      if env.refused then
        (Response.Error "Internal Server Error" StatusInternalServerError, r.ParseForm,
          { submitOrderLimiter := (s.submitOrderLimiter.TakeAvailable env.now 1).2
            db := { s.db with sent := s.db.sent ++
              [("INSERT INTO Cars (CarName, Quantity, Volume, Price) VALUES ($1, $2, $3, $4)",
                [Value.text (r.ParseForm.FormGet "carModel"), Value.int q, Value.int 0,
                  Value.float Float64.zero])] }
            qty := q
            defaultPrice := Float64.zero })
      else
        (httpRedirect r.ParseForm ("/car_info/" ++ r.ParseForm.FormGet "carModel")
            StatusSeeOther,
          r.ParseForm,
          { submitOrderLimiter := (s.submitOrderLimiter.TakeAvailable env.now 1).2
            db :=
              { Cars := s.db.Cars ++ [{ carid := s.db.nextId,
                                        CarName := r.ParseForm.FormGet "carModel", Quantity := q,
                                        Volume := Float64.zero, Price := Float64.zero }]
                nextId := s.db.nextId + 1
                sent := s.db.sent ++
                  [("INSERT INTO Cars (CarName, Quantity, Volume, Price) VALUES ($1, $2, $3, $4)",
                    [Value.text (r.ParseForm.FormGet "carModel"), Value.int q, Value.int 0,
                      Value.float Float64.zero])] }
            qty := q
            defaultPrice := Float64.zero }) := by
  unfold submitOrderHandler
  have h : ¬ (s.submitOrderLimiter.TakeAvailable env.now 1).1 < 1 := not_lt.mpr ha
  simp only [h, if_false, hq, ne_eq, not_true_eq_false, DB.exec_insert]
  cases env.refused <;> simp

/-- C1: when `submitOrderLimiter.TakeAvailable(1)` returns less than 1, the order handler answers
with status 429 and does nothing else: the request is returned as it came (its form is not
decoded), the variables `qty` and `defaultPrice` keep their values, and the store is untouched
(same rows, no statement received). -/
theorem submitOrderHandler_rate_limited (env : Env) (s : Server) (r : Request)
    (h : (s.submitOrderLimiter.TakeAvailable env.now 1).1 < 1) :
    (submitOrderHandler env s r).1 =
        Response.Error "Rate limit exceeded. Please try again later." 429 ∧
      (submitOrderHandler env s r).1.status = 429 ∧
      (submitOrderHandler env s r).2.1 = r ∧
      (submitOrderHandler env s r).2.2.qty = s.qty ∧
      (submitOrderHandler env s r).2.2.defaultPrice = s.defaultPrice ∧
      (submitOrderHandler env s r).2.2.db = s.db := by
  rw [submitOrderHandler_denied env s r h]
  exact ⟨rfl, rfl, rfl, rfl, rfl, rfl⟩

theorem submitOrderHandler_rate_limited_witness :
    (drainedServer.submitOrderLimiter.TakeAvailable 5 1).1 < 1 ∧
      (submitOrderHandler ⟨5, false⟩ drainedServer (orderRequest "Civic" "3")).1.status = 429 ∧
      (submitOrderHandler ⟨5, false⟩ drainedServer (orderRequest "Civic" "3")).2.1.Form = none ∧
      (submitOrderHandler ⟨5, false⟩ drainedServer (orderRequest "Civic" "3")).2.2.db =
        sampleDB :=
  have h := submitOrderHandler_rate_limited ⟨5, false⟩ drainedServer (orderRequest "Civic" "3")
    (by decide)
  ⟨by decide, h.2.1, by rw [h.2.2.1]; rfl, h.2.2.2.2.2⟩

/-- C4: an order that the limiter admits and whose quantity field is not a base-10 integer
(`strconv.Atoi` fails, as it does on `"abc"` and on the empty string) is answered with status
500; no statement reaches the store, whose rows are unchanged, and the answer is not a
redirect. -/
theorem submitOrderHandler_malformed_quantity (env : Env) (s : Server) (r : Request)
    (ha : 1 ≤ (s.submitOrderLimiter.TakeAvailable env.now 1).1)
    (hq : (Atoi (r.ParseForm.FormGet "quantity")).2 ≠ none) :
    (submitOrderHandler env s r).1 = Response.Error "Internal Server Error" 500 ∧
      (submitOrderHandler env s r).1.status = 500 ∧
      (submitOrderHandler env s r).2.2.db.sent = s.db.sent ∧
      (submitOrderHandler env s r).2.2.db.Cars = s.db.Cars ∧
      (∀ url code, (submitOrderHandler env s r).1 ≠ Response.Redirect url code) ∧
      (Atoi "abc").2 ≠ none ∧ (Atoi "").2 ≠ none := by
  rw [submitOrderHandler_bad_quantity env s r ha hq]
  refine ⟨rfl, rfl, rfl, rfl, ?_, by decide, by decide⟩
  intro url code h
  cases h

theorem submitOrderHandler_malformed_quantity_witness :
    1 ≤ (sampleServer.submitOrderLimiter.TakeAvailable 5 1).1 ∧
      (Atoi ((orderRequest "Civic" "abc").ParseForm.FormGet "quantity")).2 ≠ none ∧
      (submitOrderHandler ⟨5, false⟩ sampleServer (orderRequest "Civic" "abc")).1.status = 500 ∧
      (submitOrderHandler ⟨5, false⟩ sampleServer (orderRequest "Civic" "abc")).2.2.db.Cars =
        sampleDB.Cars :=
  have h := submitOrderHandler_malformed_quantity ⟨5, false⟩ sampleServer
    (orderRequest "Civic" "abc") (by decide) (by decide)
  ⟨by decide, by decide, h.2.1, h.2.2.2.1⟩

theorem Sub_mono (a b u : Int) (h : a ≤ b) : Sub a u ≤ Sub b u := by
  simp only [Sub, maxDuration, minDuration]
  split_ifs <;> omega

theorem tdiv_mono (a b d : Int) (hd : 0 < d) (h : a ≤ b) : Int.tdiv a d ≤ Int.tdiv b d := by
  by_cases ha : 0 ≤ a
  · rw [Int.tdiv_eq_ediv ha hd.le, Int.tdiv_eq_ediv (ha.trans h) hd.le]
    exact Int.ediv_le_ediv hd h
  · have ha1 : 0 ≤ -a := by omega
    have hneg : Int.tdiv a d = -((-a) / d) := by
      rw [← Int.tdiv_eq_ediv ha1 hd.le, Int.neg_tdiv, neg_neg]
    by_cases hb : 0 ≤ b
    · have h1 : 0 ≤ (-a) / d := Int.ediv_nonneg ha1 hd.le
      have h2 : 0 ≤ Int.tdiv b d := Int.tdiv_nonneg hb hd.le
      omega
    · have hb1 : 0 ≤ -b := by omega
      have hnegb : Int.tdiv b d = -((-b) / d) := by
        rw [← Int.tdiv_eq_ediv hb1 hd.le, Int.neg_tdiv, neg_neg]
      have h3 : (-b) / d ≤ (-a) / d := Int.ediv_le_ediv hd (by omega)
      omega

/-- The refill windows follow the clock. -/
theorem window_mono (start a b : Int) (h : a ≤ b) : window start a ≤ window start b := by
  simp only [window, Bucket.currentTick, submitOrderLimiter, NewBucket]
  exact tdiv_mono _ _ _ (by decide) (Sub_mono a b start h)

/-- The lookup sends one statement and leaves the rest of the store as it is. -/
theorem getCarInfoFromDatabase_db (db : DB) (carModel : String) :
    (getCarInfoFromDatabase db carModel).2 =
      { db with sent := db.sent ++
          [("SELECT CarName, Quantity, Price FROM Cars WHERE CarName = $1",
            [Value.text carModel])] } := by
  simp only [getCarInfoFromDatabase, DB.QueryRow, DB.Query]
  split <;> rfl

/-- The filter sends one statement and leaves the rest of the store as it is. -/
theorem filterCarsByVolumeFromDatabase_db (db : DB) (volume : Float64) :
    (filterCarsByVolumeFromDatabase db volume).2 =
      { db with sent := db.sent ++
          [("SELECT CarName, Quantity, Price FROM Cars WHERE Volume = $1",
            [Value.float volume])] } := by
  simp only [filterCarsByVolumeFromDatabase, DB.Query]
  split <;> rfl

/-- The listing sends one statement and leaves the rest of the store as it is. -/
theorem getAllCarsFromDatabase_db (db : DB) (sortOrder : String) :
    (getAllCarsFromDatabase db sortOrder).2 =
      { db with sent := db.sent ++ [(getAllCarsQuery sortOrder, [])] } := by
  simp only [getAllCarsFromDatabase, DB.Query]
  split <;> rfl

theorem carInfoHandler_cars (L : Lib) (db : DB) (r : Request) :
    (carInfoHandler L db r).2.2.Cars = db.Cars := by
  unfold carInfoHandler
  simp only []
  split <;> simp only [getCarInfoFromDatabase_db]

theorem filterCarsHandler_cars (L : Lib) (db : DB) (r : Request) :
    (filterCarsHandler L db r).2.2.Cars = db.Cars := by
  unfold filterCarsHandler
  simp only []
  split
  · rfl
  · split <;> simp only [filterCarsByVolumeFromDatabase_db]

theorem sortCarsHandler_cars (L : Lib) (db : DB) (r : Request) :
    (sortCarsHandler L db r).2.2.Cars = db.Cars := by
  unfold sortCarsHandler
  simp only []
  split <;> simp only [getAllCarsFromDatabase_db]

/-- Only the order handler touches the limiter. -/
theorem dispatch_limiter (L : Lib) (s : Server) (call : Call) :
    (dispatch L s call).submitOrderLimiter =
      match call with
      | Call.submitOrder env _ => (s.submitOrderLimiter.TakeAvailable env.now 1).2
      | _ => s.submitOrderLimiter := by
  cases call with
  | submitOrder env r => exact submitOrderHandler_limiter env s r
  | carInfo r => rfl
  | filterCars r => rfl
  | sortCars r => rfl

theorem dispatch_inv {start : Int} (L : Lib) (s : Server) (call : Call)
    (h : s.submitOrderLimiter.Inv start) : (dispatch L s call).submitOrderLimiter.Inv start := by
  rw [dispatch_limiter]
  cases call with
  | submitOrder env r => exact Bucket.takeAvailable_inv h env.now
  | carInfo r => exact h
  | filterCars r => exact h
  | sortCars r => exact h

theorem serve_inv {start : Int} (L : Lib) (calls : List Call) :
    ∀ s : Server, s.submitOrderLimiter.Inv start →
      (serve L s calls).submitOrderLimiter.Inv start := by
  induction calls with
  | nil => intro s h; exact h
  | cons call rest ih =>
    intro s h
    exact ih _ (dispatch_inv L s call h)

theorem boot_inv (start : Int) (db : DB) (qty : Int) (defaultPrice : Float64) :
    (boot start db qty defaultPrice).submitOrderLimiter.Inv start :=
  submitOrderLimiter_inv start

/-- Requests served in the window in which the limiter was drained leave the limiter as it is. -/
theorem serve_same_window {start w : Int} (L : Lib) (calls : List Call) :
    ∀ s : Server, s.submitOrderLimiter.Inv start → s.submitOrderLimiter.latestTick = w →
      s.submitOrderLimiter.availableTokens ≤ 0 →
      (∀ env r, Call.submitOrder env r ∈ calls → window start env.now = w) →
      (serve L s calls).submitOrderLimiter = s.submitOrderLimiter := by
  induction calls with
  | nil => intro s _ _ _ _; rfl
  | cons call rest ih =>
    intro s h hl ha hw
    have hlim : (dispatch L s call).submitOrderLimiter = s.submitOrderLimiter := by
      rw [dispatch_limiter]
      cases call with
      | submitOrder env r =>
        have hx : window start env.now = w := hw env r (List.mem_cons_self _ _)
        exact (Bucket.takeAvailable_same_window h env.now (hl.trans hx.symm) ha).2
      | carInfo r => rfl
      | filterCars r => rfl
      | sortCars r => rfl
    have hrest := ih (dispatch L s call) (hlim ▸ h) (hlim ▸ hl) (hlim ▸ ha)
      (fun env r hy => hw env r (List.mem_cons_of_mem _ hy))
    simp only [serve]
    rw [hrest, hlim]

/-- A request served in the window in which an earlier request consulted the limiter is denied,
when the clock has not run backwards in between. -/
theorem denied_after_consultation {start : Int} (L : Lib) (s : Server)
    (h : s.submitOrderLimiter.Inv start) (e1 : Env) (r1 : Request) (between : List Call)
    (e2 : Env)
    (hclock : ∀ env r, Call.submitOrder env r ∈ between →
      e1.now ≤ env.now ∧ env.now ≤ e2.now)
    (h2 : window start e2.now = window start e1.now) :
    ((serve L (submitOrderHandler e1 s r1).2.2 between).submitOrderLimiter.TakeAvailable
      e2.now 1).1 < 1 := by
  have hd := Bucket.takeAvailable_drained h e1.now
  have hi := Bucket.takeAvailable_inv h e1.now
  rw [← submitOrderHandler_limiter e1 s r1] at hd hi
  have hb : ∀ env r, Call.submitOrder env r ∈ between →
      window start env.now = window start e1.now := by
    intro env r hmem
    have h3 := window_mono start _ _ (hclock env r hmem).1
    have h4 := window_mono start _ _ (hclock env r hmem).2
    omega
  have hkeep := serve_same_window L between (submitOrderHandler e1 s r1).2.2 hi hd.1 hd.2 hb
  rw [hkeep]
  have hsame := Bucket.takeAvailable_same_window hi e2.now (hd.1.trans h2.symm) hd.2
  rw [hsame.1]
  decide

/-- Remark: the windows are counted from the creation of the bucket, so two submissions
two seconds apart that lie on both sides of a refill (29 s and 31 s after start-up) are both
admitted. -/
theorem submissions_across_refill_admitted :
    window 0 (29 * Second) ≠ window 0 (31 * Second) ∧
      (submitOrderHandler ⟨29 * Second, false⟩ sampleServer (orderRequest "Polo" "3")).1 =
        Response.Redirect "/car_info/Polo" 303 ∧
      (submitOrderHandler ⟨31 * Second, false⟩
        (submitOrderHandler ⟨29 * Second, false⟩ sampleServer (orderRequest "Polo" "3")).2.2
        (orderRequest "Civic" "2")).1 = Response.Redirect "/car_info/Civic" 303 := by
  decide

/-- An admitted request that fails, on its quantity or on its `INSERT`, is answered with status
500 and leaves the rows of the table as they are. -/
theorem submitOrderHandler_failed (env : Env) (s : Server) (r : Request)
    (ha : 1 ≤ (s.submitOrderLimiter.TakeAvailable env.now 1).1)
    (hf : (Atoi (r.ParseForm.FormGet "quantity")).2 ≠ none ∨ env.refused = true) :
    (submitOrderHandler env s r).1 =
        Response.Error "Internal Server Error" StatusInternalServerError ∧
      (submitOrderHandler env s r).2.2.db.Cars = s.db.Cars := by
  by_cases hq : (Atoi (r.ParseForm.FormGet "quantity")).2 = none
  · have href : env.refused = true := by
      rcases hf with h | h
      · exact absurd hq h
      · exact h
    have hpair : Atoi (r.ParseForm.FormGet "quantity") =
        ((Atoi (r.ParseForm.FormGet "quantity")).1, none) := by
      rw [← hq]
    rw [submitOrderHandler_good_quantity env s r _ ha hpair, href]
    exact ⟨rfl, rfl⟩
  · rw [submitOrderHandler_bad_quantity env s r ha hq]
    exact ⟨rfl, rfl⟩

/-- C10: the token is taken before the request is checked and is not given back. After any
earlier requests, let an order be admitted by the limiter and then fail (its quantity does not
parse, or the store refuses its `INSERT`): it is answered with status 500, the limiter is left
without token, and the next submission, served in the same refill window (no refill in
between), is answered with status 429 whatever it carries; the rows of the table are the same
after the two requests as before them. -/
theorem failed_submission_keeps_token (L : Lib) (start : Int) (db : DB) (qty : Int)
    (defaultPrice : Float64) (history : List Call) (e1 : Env) (r1 : Request)
    (e2 : Env) (r2 : Request)
    (ha : 1 ≤ ((serve L (boot start db qty defaultPrice) history).submitOrderLimiter.TakeAvailable
      e1.now 1).1)
    (hf : (Atoi (r1.ParseForm.FormGet "quantity")).2 ≠ none ∨ e1.refused = true)
    (h2 : window start e2.now = window start e1.now) :
    (submitOrderHandler e1 (serve L (boot start db qty defaultPrice) history) r1).1.status = 500 ∧
      (submitOrderHandler e1 (serve L (boot start db qty defaultPrice) history)
        r1).2.2.submitOrderLimiter.availableTokens ≤ 0 ∧
      (submitOrderHandler e2
        (submitOrderHandler e1 (serve L (boot start db qty defaultPrice) history) r1).2.2 r2).1 =
        Response.Error "Rate limit exceeded. Please try again later." 429 ∧
      (submitOrderHandler e2
        (submitOrderHandler e1 (serve L (boot start db qty defaultPrice) history) r1).2.2
        r2).2.2.db.Cars = (serve L (boot start db qty defaultPrice) history).db.Cars := by
  have hinv := serve_inv L history (boot start db qty defaultPrice)
    (boot_inv start db qty defaultPrice)
  have hfail := submitOrderHandler_failed e1 _ r1 ha hf
  have hden := denied_after_consultation L _ hinv e1 r1 [] e2
    (fun env r hx => absurd hx (List.not_mem_nil _)) h2
  simp only [serve] at hden
  have hdr := (Bucket.takeAvailable_drained hinv e1.now).2
  rw [← submitOrderHandler_limiter e1 _ r1] at hdr
  rw [submitOrderHandler_denied e2 _ r2 hden]
  refine ⟨?_, hdr, rfl, hfail.2⟩
  rw [hfail.1]
  rfl

theorem failed_submission_keeps_token_witness :
    1 ≤ ((serve sampleLib (boot 0 sampleDB 0 Float64.zero) []).submitOrderLimiter.TakeAvailable
        (3 * Second) 1).1 ∧
      ((Atoi ((orderRequest "Polo" "many").ParseForm.FormGet "quantity")).2 ≠ none ∨
        false = true) ∧
      window 0 (20 * Second) = window 0 (3 * Second) ∧
      (submitOrderHandler ⟨20 * Second, false⟩
        (submitOrderHandler ⟨3 * Second, false⟩ (serve sampleLib (boot 0 sampleDB 0 Float64.zero) [])
          (orderRequest "Polo" "many")).2.2 (orderRequest "Civic" "2")).1 =
        Response.Error "Rate limit exceeded. Please try again later." 429 :=
  ⟨by decide, Or.inl (by decide), by decide,
    (failed_submission_keeps_token sampleLib 0 sampleDB 0 Float64.zero [] ⟨3 * Second, false⟩
      (orderRequest "Polo" "many") ⟨20 * Second, false⟩ (orderRequest "Civic" "2")
      (by decide) (Or.inl (by decide)) (by decide)).2.2.1⟩

/-! ## Reading from the store -/

theorem Scan_columns (row : Row) : Scan row.columns = Except.ok row.toCar := rfl

/-- The loop over the result rows of the store appends the projection of every row, in order. -/
theorem scanRows_columns (rows : List Row) :
    ∀ cars : List Car,
      scanRows cars (rows.map Row.columns) = (cars ++ rows.map Row.toCar, none) := by
  induction rows with
  | nil => intro cars; simp [scanRows]
  | cons row rest ih =>
    intro cars
    simp only [List.map_cons, scanRows, Scan_columns]
    rw [ih]
    simp

theorem DB.select_by_name (db : DB) (name : String) :
    db.select "SELECT CarName, Quantity, Price FROM Cars WHERE CarName = $1" [Value.text name] =
      Except.ok ((db.Cars.filter (fun row => decide (row.CarName = name))).map Row.columns) := by
  simp [DB.select]

theorem DB.select_by_volume (db : DB) (v : Float64) :
    db.select "SELECT CarName, Quantity, Price FROM Cars WHERE Volume = $1" [Value.float v] =
      Except.ok ((db.Cars.filter (fun row => Float64.eq row.Volume v)).map Row.columns) := by
  simp [DB.select, Value.toFloat64]

/-- The lookup by name answers with the first row of that name, or with an error and the zero
`Car` when there is none. -/
theorem getCarInfoFromDatabase_eq (db : DB) (carModel : String) :
    (getCarInfoFromDatabase db carModel).1 =
      match db.Cars.filter (fun row => decide (row.CarName = carModel)) with
      | [] => (Car.zero, some "sql: no rows in result set")
      | row :: _ => (row.toCar, none) := by
  simp only [getCarInfoFromDatabase, DB.QueryRow, DB.Query, DB.select_by_name]
  cases db.Cars.filter (fun row => decide (row.CarName = carModel)) with
  | nil => rfl
  | cons row rest => rfl

theorem filter_name_eq_nil (cars : List Row) (name : String)
    (h : ∀ row ∈ cars, row.CarName ≠ name) :
    cars.filter (fun row => decide (row.CarName = name)) = [] := by
  rw [List.filter_eq_nil_iff]
  intro row hrow
  simpa using h row hrow

/-- The filter by volume hands to its caller the projections of the matching rows, in the order
of the store, and no error. -/
theorem filterCarsByVolumeFromDatabase_eq (db : DB) (v : Float64) :
    (filterCarsByVolumeFromDatabase db v).1 =
      ((db.Cars.filter (fun row => Float64.eq row.Volume v)).map Row.toCar, none) := by
  simp only [filterCarsByVolumeFromDatabase, DB.Query, DB.select_by_volume]
  rw [scanRows_columns]
  simp

/-! ## Lookup after an order -/

/-- C2, as stated, fails: the sample store already holds a row named `"Civic"` with quantity 5.
The order (`"Civic"`, `"3"`) is admitted, parses, is inserted and redirected, and the lookup of
`"Civic"` that follows succeeds with the older row: quantity 5 and its stored price, not
quantity 3 and price 0; `carInfoHandler` renders that older row. -/
theorem lookup_after_order_finds_older_row :
    1 ≤ (sampleServer.submitOrderLimiter.TakeAvailable 5 1).1 ∧
      Atoi ((orderRequest "Civic" "3").ParseForm.FormGet "quantity") = (3, none) ∧
      (submitOrderHandler ⟨5, false⟩ sampleServer (orderRequest "Civic" "3")).1 =
        Response.Redirect "/car_info/Civic" 303 ∧
      (submitOrderHandler ⟨5, false⟩ sampleServer (orderRequest "Civic" "3")).2.2.db.Cars =
        sampleDB.Cars ++ [{ carid := 8, CarName := "Civic", Quantity := 3,
                            Volume := Float64.zero, Price := Float64.zero }] ∧
      (getCarInfoFromDatabase
        (submitOrderHandler ⟨5, false⟩ sampleServer (orderRequest "Civic" "3")).2.2.db
        "Civic").1 = ({ Model := "Civic", Quantity := 5, Price := ⟨0x40C3880000000000⟩ }, none) ∧
      ¬ ((getCarInfoFromDatabase
          (submitOrderHandler ⟨5, false⟩ sampleServer (orderRequest "Civic" "3")).2.2.db
          "Civic").1.1.Quantity = 3 ∧
        (getCarInfoFromDatabase
          (submitOrderHandler ⟨5, false⟩ sampleServer (orderRequest "Civic" "3")).2.2.db
          "Civic").1.1.Price = Float64.zero) ∧
      (carInfoHandler sampleLib
        (submitOrderHandler ⟨5, false⟩ sampleServer (orderRequest "Civic" "3")).2.2.db
        (infoRequest "Civic")).1 =
        Response.Execute orderTemplate "Car Information"
          [{ Model := "Civic", Quantity := 5, Price := ⟨0x40C3880000000000⟩ }] :=
  ⟨by decide, by decide, by decide, by decide, by decide, by decide, by rfl⟩

/-- C2, amended: an order (carModel, quantity parsing to `q`) that the limiter admits and whose
`INSERT` the store accepts, on a prior store in which no row is named carModel: the lookup of
carModel that follows succeeds in `getCarInfoFromDatabase` with the car (carModel, q, price 0),
and `carInfoHandler` renders exactly that car under the title "Car Information" (with status
200 when the template text parses). -/
theorem lookup_after_order_on_fresh_model (L : Lib) (env : Env) (s : Server) (r : Request)
    (q : Int) (r2 : Request)
    (ha : 1 ≤ (s.submitOrderLimiter.TakeAvailable env.now 1).1)
    (hq : Atoi (r.ParseForm.FormGet "quantity") = (q, none))
    (hi : env.refused = false)
    (hfresh : ∀ row ∈ s.db.Cars, row.CarName ≠ r.ParseForm.FormGet "carModel")
    (hr2 : Values.Get r2.Vars "carModel" = r.ParseForm.FormGet "carModel") :
    (getCarInfoFromDatabase (submitOrderHandler env s r).2.2.db
        (r.ParseForm.FormGet "carModel")).1 =
        ({ Model := r.ParseForm.FormGet "carModel", Quantity := q, Price := Float64.zero },
          none) ∧
      (carInfoHandler L (submitOrderHandler env s r).2.2.db r2).1 =
        renderTemplate L orderTemplate "Car Information"
          (Data.car { Model := r.ParseForm.FormGet "carModel", Quantity := q,
                      Price := Float64.zero }) ∧
      (L.ParseTemplate orderTemplate = true →
        (carInfoHandler L (submitOrderHandler env s r).2.2.db r2).1 =
          Response.Execute orderTemplate "Car Information"
            [{ Model := r.ParseForm.FormGet "carModel", Quantity := q,
               Price := Float64.zero }]) := by
  have hlook : (getCarInfoFromDatabase (submitOrderHandler env s r).2.2.db
      (r.ParseForm.FormGet "carModel")).1 =
      ({ Model := r.ParseForm.FormGet "carModel", Quantity := q, Price := Float64.zero },
        none) := by
    rw [getCarInfoFromDatabase_eq, submitOrderHandler_good_quantity env s r q ha hq, hi]
    simp only [Bool.false_eq_true, if_false, List.filter_append,
      filter_name_eq_nil s.db.Cars _ hfresh, List.nil_append]
    simp [List.filter, Row.toCar]
  have hhandler : (carInfoHandler L (submitOrderHandler env s r).2.2.db r2).1 =
      renderTemplate L orderTemplate "Car Information"
        (Data.car { Model := r.ParseForm.FormGet "carModel", Quantity := q,
                    Price := Float64.zero }) := by
    simp only [carInfoHandler, hr2, hlook]
  refine ⟨hlook, hhandler, ?_⟩
  intro ht
  rw [hhandler]
  simp [renderTemplate, ht]

theorem lookup_after_order_on_fresh_model_witness :
    1 ≤ (sampleServer.submitOrderLimiter.TakeAvailable 5 1).1 ∧
      Atoi ((orderRequest "Polo" "3").ParseForm.FormGet "quantity") = (3, none) ∧
      (∀ row ∈ sampleServer.db.Cars,
        row.CarName ≠ (orderRequest "Polo" "3").ParseForm.FormGet "carModel") ∧
      (getCarInfoFromDatabase
        (submitOrderHandler ⟨5, false⟩ sampleServer (orderRequest "Polo" "3")).2.2.db
        ((orderRequest "Polo" "3").ParseForm.FormGet "carModel")).1 =
        ({ Model := "Polo", Quantity := 3, Price := Float64.zero }, none) :=
  ⟨by decide, by decide, by decide,
    (lookup_after_order_on_fresh_model sampleLib ⟨5, false⟩ sampleServer (orderRequest "Polo" "3")
      3 (infoRequest "Polo") (by decide) (by decide) rfl (by decide) (by decide)).1⟩

/-- C8: when no row of the table is named carModel, `getCarInfoFromDatabase` returns an error
together with the zero `Car`, and `carInfoHandler` answers with status 500 whatever the
template library does: its answer is never the execution of the template, so there is no 200
page with an empty or zero-valued record. -/
theorem lookup_of_missing_model_fails (L : Lib) (db : DB) (carModel : String) (r : Request)
    (hmiss : ∀ row ∈ db.Cars, row.CarName ≠ carModel)
    (hr : Values.Get r.Vars "carModel" = carModel) :
    (getCarInfoFromDatabase db carModel).1 = (Car.zero, some "sql: no rows in result set") ∧
      (carInfoHandler L db r).1 = Response.Error "Internal Server Error" 500 ∧
      (carInfoHandler L db r).1.status = 500 ∧
      (∀ text title cars, (carInfoHandler L db r).1 ≠ Response.Execute text title cars) := by
  have hlook : (getCarInfoFromDatabase db carModel).1 =
      (Car.zero, some "sql: no rows in result set") := by
    rw [getCarInfoFromDatabase_eq, filter_name_eq_nil db.Cars carModel hmiss]
  have hhandler : (carInfoHandler L db r).1 = Response.Error "Internal Server Error" 500 := by
    simp only [carInfoHandler, hr, hlook]
    rfl
  refine ⟨hlook, hhandler, ?_, ?_⟩
  · rw [hhandler]; rfl
  · intro text title cars h
    rw [hhandler] at h
    cases h

theorem lookup_of_missing_model_fails_witness :
    (∀ row ∈ sampleDB.Cars, row.CarName ≠ "Polo") ∧
      Values.Get (infoRequest "Polo").Vars "carModel" = "Polo" ∧
      (carInfoHandler sampleLib sampleDB (infoRequest "Polo")).1.status = 500 :=
  ⟨by decide, by decide,
    (lookup_of_missing_model_fails sampleLib sampleDB "Polo" (infoRequest "Polo") (by decide)
      (by decide)).2.2.1⟩

/-! ## Filter, listing and rendering -/

/-- C7: for every table and every `carVolume` that parses to `v`, `filterCarsHandler` hands to
the renderer, under the title "Filtered Cars", exactly the (CarName, Quantity, Price)
projections of the rows whose stored Volume equals `v`, in the order of the store, and nothing
else. The template text being well formed, the answer is the execution of the template on
that collection, with status 200; when no row has that volume the template is executed on the
empty collection, which is still a 200 page with the title and no record, not an error. -/
theorem filterCarsHandler_renders_matches (L : Lib) (db : DB) (r : Request) (v : Float64)
    (hv : L.ParseFloat (r.ParseForm.FormGet "carVolume") = some v) :
    (filterCarsHandler L db r).1 =
        renderTemplate L orderTemplate "Filtered Cars"
          (Data.cars ((db.Cars.filter (fun row => Float64.eq row.Volume v)).map Row.toCar)) ∧
      (L.ParseTemplate orderTemplate = true →
        (filterCarsHandler L db r).1 =
            Response.Execute orderTemplate "Filtered Cars"
              ((db.Cars.filter (fun row => Float64.eq row.Volume v)).map Row.toCar) ∧
          (filterCarsHandler L db r).1.status = 200 ∧
          ((∀ row ∈ db.Cars, Float64.eq row.Volume v = false) →
            (filterCarsHandler L db r).1 = Response.Execute orderTemplate "Filtered Cars" [] ∧
              (filterCarsHandler L db r).1.status = 200)) := by
  have hhand : (filterCarsHandler L db r).1 =
      renderTemplate L orderTemplate "Filtered Cars"
        (Data.cars ((db.Cars.filter (fun row => Float64.eq row.Volume v)).map Row.toCar)) := by
    simp only [filterCarsHandler, hv, filterCarsByVolumeFromDatabase_eq]
  refine ⟨hhand, ?_⟩
  intro ht
  have hresp : (filterCarsHandler L db r).1 =
      Response.Execute orderTemplate "Filtered Cars"
        ((db.Cars.filter (fun row => Float64.eq row.Volume v)).map Row.toCar) := by
    rw [hhand]
    simp [renderTemplate, ht]
  refine ⟨hresp, ?_, ?_⟩
  · rw [hresp]; rfl
  · intro hnone
    have hnil : db.Cars.filter (fun row => Float64.eq row.Volume v) = [] := by
      rw [List.filter_eq_nil_iff]
      intro row hrow
      simp [hnone row hrow]
    rw [hresp, hnil]
    exact ⟨rfl, rfl⟩

theorem filterCarsHandler_renders_matches_witness :
    sampleLib.ParseFloat ((filterRequest "2.5").ParseForm.FormGet "carVolume") =
        some ⟨0x4004000000000000⟩ ∧
      sampleLib.ParseTemplate orderTemplate = true ∧
      (filterCarsHandler sampleLib sampleDB (filterRequest "2.5")).1 =
        Response.Execute orderTemplate "Filtered Cars"
          [{ Model := "Civic", Quantity := 5, Price := ⟨0x40C3880000000000⟩ }] ∧
      (filterCarsHandler sampleLib sampleDB (filterRequest "2.5")).1.status = 200 :=
  have h := (filterCarsHandler_renders_matches sampleLib sampleDB (filterRequest "2.5")
    ⟨0x4004000000000000⟩ (by decide)).2 rfl
  ⟨by decide, rfl,
    h.1.trans (congrArg (Response.Execute orderTemplate "Filtered Cars") (by decide)), h.2.1⟩

/-- C6: for every string `sortOrder`, `getAllCarsFromDatabase` sends to the store exactly one
statement, without parameters, whose text is `"SELECT CarName, Quantity, Price FROM Cars"`
followed by `" ORDER BY carid ASC"` exactly when `sortOrder` is `"asc"`, by
`" ORDER BY carid DESC"` exactly when it is `"desc"`, and by nothing for every other value, among
them the empty string and `"ASC"`; so the text is always one of these three and the only
ordering column is `carid`. -/
theorem getAllCarsFromDatabase_query_text (db : DB) (sortOrder : String) :
    (getAllCarsFromDatabase db sortOrder).2.sent = db.sent ++ [(getAllCarsQuery sortOrder, [])] ∧
      (getAllCarsQuery sortOrder =
          "SELECT CarName, Quantity, Price FROM Cars" ++ " ORDER BY carid ASC" ↔
        sortOrder = "asc") ∧
      (getAllCarsQuery sortOrder =
          "SELECT CarName, Quantity, Price FROM Cars" ++ " ORDER BY carid DESC" ↔
        sortOrder = "desc") ∧
      (getAllCarsQuery sortOrder = "SELECT CarName, Quantity, Price FROM Cars" ↔
        (sortOrder ≠ "asc" ∧ sortOrder ≠ "desc")) ∧
      (getAllCarsQuery sortOrder = "SELECT CarName, Quantity, Price FROM Cars" ∨
        getAllCarsQuery sortOrder =
          "SELECT CarName, Quantity, Price FROM Cars ORDER BY carid ASC" ∨
        getAllCarsQuery sortOrder =
          "SELECT CarName, Quantity, Price FROM Cars ORDER BY carid DESC") ∧
      getAllCarsQuery "" = "SELECT CarName, Quantity, Price FROM Cars" ∧
      getAllCarsQuery "ASC" = "SELECT CarName, Quantity, Price FROM Cars" := by
  refine ⟨?_, ?_, ?_, ?_, ?_, by decide, by decide⟩
  · simp only [getAllCarsFromDatabase, DB.Query]
    split <;> rfl
  · unfold getAllCarsQuery
    by_cases h1 : sortOrder = "asc"
    · simp [h1]
    · by_cases h2 : sortOrder = "desc"
      · subst h2; decide
      · simp only [h1, h2, if_false, iff_false]; decide
  · unfold getAllCarsQuery
    by_cases h1 : sortOrder = "asc"
    · subst h1; decide
    · by_cases h2 : sortOrder = "desc"
      · simp [h2]
      · simp only [h1, h2, if_false, iff_false]; decide
  · unfold getAllCarsQuery
    by_cases h1 : sortOrder = "asc"
    · subst h1; decide
    · by_cases h2 : sortOrder = "desc"
      · subst h2; decide
      · simp [h1, h2]
  · unfold getAllCarsQuery
    by_cases h1 : sortOrder = "asc"
    · subst h1; decide
    · by_cases h2 : sortOrder = "desc"
      · subst h2; decide
      · simp [h1, h2]

/-- C9: for every title and every data value, `renderTemplate` normalises the data before it
binds it to the template. A single `Car` gives the same response as the one-element collection
holding it; when the template text parses, a `Car` `c` is bound as the sequence `[c]` and a
collection is bound as it is, same length and same order; a value of any other type is answered
with the error 500 "Internal Server Error" and the template is never executed on it. -/
theorem renderTemplate_normalises (L : Lib) (templateContent title : String) :
    (∀ c : Car, renderTemplate L templateContent title (Data.car c) =
        renderTemplate L templateContent title (Data.cars [c])) ∧
      (L.ParseTemplate templateContent = true →
        (∀ c : Car, renderTemplate L templateContent title (Data.car c) =
          Response.Execute templateContent title [c]) ∧
        (∀ cs : List Car, renderTemplate L templateContent title (Data.cars cs) =
          Response.Execute templateContent title cs)) ∧
      (∀ goType : String, renderTemplate L templateContent title (Data.other goType) =
        Response.Error "Internal Server Error" 500) ∧
      (∀ (goType text t : String) (cars : List Car),
        renderTemplate L templateContent title (Data.other goType) ≠
          Response.Execute text t cars) := by
  have hother : ∀ goType : String, renderTemplate L templateContent title (Data.other goType) =
      Response.Error "Internal Server Error" 500 := by
    intro goType
    unfold renderTemplate
    split_ifs <;> rfl
  refine ⟨?_, ?_, hother, ?_⟩
  · intro c
    unfold renderTemplate
    split_ifs <;> rfl
  · intro ht
    constructor
    · intro c; simp [renderTemplate, ht]
    · intro cs; simp [renderTemplate, ht]
  · intro goType text t cars h
    rw [hother] at h
    cases h

theorem renderTemplate_normalises_witness :
    sampleLib.ParseTemplate orderTemplate = true ∧
      renderTemplate sampleLib orderTemplate "Car Information"
          (Data.car { Model := "Golf", Quantity := 1, Price := Float64.zero }) =
        Response.Execute orderTemplate "Car Information"
          [{ Model := "Golf", Quantity := 1, Price := Float64.zero }] ∧
      renderTemplate sampleLib orderTemplate "Car Information" (Data.other "*main.Car") =
        Response.Error "Internal Server Error" 500 :=
  ⟨rfl,
    ((renderTemplate_normalises sampleLib orderTemplate "Car Information").2.1 rfl).1 _,
    (renderTemplate_normalises sampleLib orderTemplate "Car Information").2.2.1 _⟩

end Adv34
